import Mathlib

/-!
Shallow embedding of `create_test_ppt.py` (the git2txt fixture generator).

The script builds a two-slide presentation with the `pptx` library, saves it
next to the script as `sample.pptx`, and prints one confirmation line.
We model the relevant parts of the `pptx` object model (text frames,
paragraphs, placeholders, slide layouts, decks), the POSIX path helpers
`os.path.dirname` / `os.path.join`, a filesystem as a path-keyed store, and
failures of indexing / attribute access / saving as an `Except` result.
-/

/-- A `pptx` paragraph: one unit of text in a text frame. -/
structure Paragraph where
  text : String
deriving Repr, DecidableEq

/-- A `pptx` text frame: an ordered list of paragraphs. -/
structure TextFrame where
  paragraphs : List Paragraph
deriving Repr, DecidableEq

/-- A freshly created placeholder text frame holds a single empty paragraph. -/
def TextFrame.new : TextFrame := ⟨[⟨""⟩]⟩

/-- The `text` setter (`tf.text = s`, also used by `placeholder.text = s`):
replaces the whole content with the assigned text as a single paragraph
(`pptx` splits on line feeds; none of the script's strings contain one). -/
def TextFrame.setText (_tf : TextFrame) (s : String) : TextFrame := ⟨[⟨s⟩]⟩

/-- `tf.add_paragraph()`: appends a new empty paragraph. -/
def TextFrame.add_paragraph (tf : TextFrame) : TextFrame :=
  ⟨tf.paragraphs ++ [⟨""⟩]⟩

/-- Replace the `i`-th element of a list, leaving the list unchanged when the
index is out of range. -/
def listModify {α : Type} (xs : List α) (i : Nat) (f : α → α) : List α :=
  match xs, i with
  | [], _ => []
  | x :: rest, 0 => f x :: rest
  | x :: rest, n + 1 => x :: listModify rest n f

/-- `p.text = s` where `p` is the paragraph just returned by
`tf.add_paragraph()`: sets the text of the last paragraph. -/
def TextFrame.setLastText (tf : TextFrame) (s : String) : TextFrame :=
  ⟨listModify tf.paragraphs (tf.paragraphs.length - 1) fun _ => ⟨s⟩⟩

/-- The `text` getter on a placeholder: paragraph texts joined by line feeds. -/
def TextFrame.text (tf : TextFrame) : String :=
  String.intercalate "\n" (tf.paragraphs.map Paragraph.text)

/-- A placeholder: a content region identified by its placeholder index
(`idx`), holding a text frame. -/
structure Placeholder where
  idx : Nat
  tf : TextFrame
deriving Repr, DecidableEq

/-- A slide layout: determines which placeholder indices a slide created from
it exposes. -/
structure Layout where
  placeholderIdxs : List Nat
deriving Repr, DecidableEq

/-- A slide: remembers the layout it was created from and owns its
placeholders. -/
structure Slide where
  layout : Layout
  placeholders : List Placeholder
deriving Repr, DecidableEq

/-- `slides.add_slide(layout)` clones the layout's placeholders onto the new
slide, each with a fresh (empty) text frame. -/
def Slide.fromLayout (l : Layout) : Slide :=
  ⟨l, l.placeholderIdxs.map fun i => ⟨i, TextFrame.new⟩⟩

/-- `slide.shapes.title`: the placeholder with idx 0, or `none`. -/
def Slide.title (sl : Slide) : Option Placeholder :=
  sl.placeholders.find? fun ph => ph.idx == 0

/-- `slide.placeholders[i]`: lookup of a placeholder by its idx. -/
def Slide.placeholderAt (sl : Slide) (i : Nat) : Option Placeholder :=
  sl.placeholders.find? fun ph => ph.idx == i

/-- Mutate (through a reference) the text frame of the placeholder with
idx `i` on a slide. -/
def Slide.modifyPh (sl : Slide) (i : Nat) (f : TextFrame → TextFrame) : Slide :=
  ⟨sl.layout, sl.placeholders.map fun ph =>
    if ph.idx == i then ⟨ph.idx, f ph.tf⟩ else ph⟩

/-- The in-memory presentation: an ordered list of slides. -/
structure Deck where
  slides : List Slide
deriving Repr, DecidableEq

/-- `prs.slides.add_slide(layout)`: appends a slide built from the layout. -/
def Deck.add_slide (d : Deck) (l : Layout) : Deck :=
  ⟨d.slides ++ [Slide.fromLayout l]⟩

/-- The slide at position `i` (total, with a junk default; the script only
uses in-range positions). -/
def Deck.slideAtD (d : Deck) (i : Nat) : Slide :=
  d.slides.getD i ⟨⟨[]⟩, []⟩

/-- Mutate (through a reference) placeholder `i` of slide `si` of a deck. -/
def Deck.modifyPh (d : Deck) (si i : Nat) (f : TextFrame → TextFrame) : Deck :=
  ⟨listModify d.slides si fun sl => sl.modifyPh i f⟩

/-- The template behind `Presentation()`: its list of slide layouts
(`prs.slide_layouts`). -/
structure Template where
  slide_layouts : List Layout
deriving Repr, DecidableEq

/-- Python exceptions the script can let escape. -/
inductive PyErr where
  | indexError
  | keyError
  | attributeError
  | osError
deriving Repr, DecidableEq

/-- Lines 7–28 of `create_test_ppt.py`: build the in-memory deck.
`prs = Presentation()` starts from the template's empty deck; every indexing
or attribute failure escapes as the corresponding Python exception. -/
def create_test_deck (tmpl : Template) : Except PyErr Deck :=
  -- prs = Presentation()
  let prs : Deck := ⟨[]⟩
  -- title_slide_layout = prs.slide_layouts[0]
  match tmpl.slide_layouts[0]? with
  | none => .error .indexError
  | some title_slide_layout =>
    -- slide = prs.slides.add_slide(title_slide_layout)
    let prs := prs.add_slide title_slide_layout
    let s0 := prs.slides.length - 1
    -- title = slide.shapes.title  (None when the layout has no title)
    let title := (prs.slideAtD s0).title
    -- subtitle = slide.placeholders[1]  (KeyError when absent)
    match (prs.slideAtD s0).placeholderAt 1 with
    | none => .error .keyError
    | some _subtitle =>
      -- title.text = "Test Presentation"  (AttributeError when title is None)
      match title with
      | none => .error .attributeError
      | some _ =>
        let prs := prs.modifyPh s0 0 fun tf => tf.setText "Test Presentation"
        -- subtitle.text = "Created by file2ai"
        let prs := prs.modifyPh s0 1 fun tf => tf.setText "Created by file2ai"
        -- bullet_slide_layout = prs.slide_layouts[1]
        match tmpl.slide_layouts[1]? with
        | none => .error .indexError
        | some bullet_slide_layout =>
          -- slide = prs.slides.add_slide(bullet_slide_layout)
          let prs := prs.add_slide bullet_slide_layout
          let s1 := prs.slides.length - 1
          -- title = slide.shapes.title
          let title2 := (prs.slideAtD s1).title
          -- body = slide.placeholders[1]
          match (prs.slideAtD s1).placeholderAt 1 with
          | none => .error .keyError
          | some _body =>
            -- title.text = "Sample Content"
            match title2 with
            | none => .error .attributeError
            | some _ =>
              let prs := prs.modifyPh s1 0 fun tf => tf.setText "Sample Content"
              -- tf = body.text_frame; tf.text = "This is a test slide"
              let prs := prs.modifyPh s1 1 fun tf =>
                tf.setText "This is a test slide"
              -- p = tf.add_paragraph(); p.text = "• Bullet point 1"
              let prs := prs.modifyPh s1 1 fun tf =>
                tf.add_paragraph.setLastText "• Bullet point 1"
              -- p = tf.add_paragraph(); p.text = "• Bullet point 2"
              let prs := prs.modifyPh s1 1 fun tf =>
                tf.add_paragraph.setLastText "• Bullet point 2"
              .ok prs

/-- The prefix of `cs` up to and including its last slash (`p[:p.rfind(sep)+1]`
of `posixpath.dirname`). -/
def headToLastSlash : List Char → List Char
  | [] => []
  | c :: cs =>
    if cs.contains '/' then c :: headToLastSlash cs
    else if c = '/' then ['/'] else []

/-- `os.path.dirname` for POSIX paths: the prefix up to the last slash, with
trailing slashes stripped unless the head is all slashes. -/
def os_path_dirname (p : String) : String :=
  let head := headToLastSlash p.toList
  if head ≠ [] ∧ ¬ head.all (· = '/') then
    ⟨(head.reverse.dropWhile (· = '/')).reverse⟩
  else ⟨head⟩

/-- `b.startswith(a)`, computed on the underlying characters. -/
def strStartsWith (s pre : String) : Bool :=
  pre.toList.isPrefixOf s.toList

/-- `a.endswith(b)`, computed on the underlying characters. -/
def strEndsWith (s suf : String) : Bool :=
  suf.toList.reverse.isPrefixOf s.toList.reverse

/-- `os.path.join` for POSIX paths, two arguments. -/
def os_path_join (a b : String) : String :=
  if strStartsWith b "/" then b
  else if a = "" ∨ strEndsWith a "/" then a ++ b
  else a ++ "/" ++ b

/-- The filesystem, as a store from paths to serialized decks. -/
structure FileSystem where
  files : List (String × Deck)
deriving Repr, DecidableEq

/-- `prs.save(path)`: (over)write the file at `path`. -/
def FileSystem.write (fs : FileSystem) (p : String) (d : Deck) : FileSystem :=
  ⟨(p, d) :: fs.files.filter fun e => !(e.1 == p)⟩

/-- Read the file at `p`, when present. -/
def FileSystem.read (fs : FileSystem) (p : String) : Option Deck :=
  (fs.files.find? fun e => e.1 == p).map Prod.snd

/-- The environment a run of the script sees: the script's `__file__` path,
the current working directory (which the script never consults), the
template behind `Presentation()`, and whether the output location is
writable. -/
structure Env where
  file : String
  cwd : String
  tmpl : Template
  saveOk : Bool
deriving Repr, DecidableEq

/-- Lines 5–33 of `create_test_ppt.py`: the whole of
`create_test_presentation()`. Returns the updated filesystem and the list of
lines printed to stdout, or the Python exception that escaped. Saving fails
(with an `OSError`) exactly when the output location is not writable. -/
def create_test_presentation (env : Env) (fs : FileSystem) :
    Except PyErr (FileSystem × List String) :=
  match create_test_deck env.tmpl with
  | .error e => .error e
  | .ok prs =>
    -- output_path = os.path.join(os.path.dirname(__file__), "sample.pptx")
    let output_path := os_path_join (os_path_dirname env.file) "sample.pptx"
    -- prs.save(output_path)
    if env.saveOk then
      -- print(f"Created test presentation at: {output_path}")
      .ok (fs.write output_path prs,
        ["Created test presentation at: " ++ output_path])
    else
      .error .osError

/-- Lines 35–36: the module's top level. When the module is run as a script
(`__name__ == "__main__"`) it calls `create_test_presentation()` once;
importing it does nothing. -/
def module_toplevel (name : String) (env : Env) (fs : FileSystem) :
    Except PyErr (FileSystem × List String) :=
  if name == "__main__" then create_test_presentation env fs
  else .ok (fs, [])

/-- Exit status of the process: 0 on success, non-zero when an exception
escapes. -/
def exitCode {α : Type} : Except PyErr α → Nat
  | .ok _ => 0
  | .error _ => 1

/-- What actually reached stdout: the printed lines on success, nothing when
an exception escapes. -/
def stdoutLines : Except PyErr (FileSystem × List String) → List String
  | .ok (_, out) => out
  | .error _ => []

/-- The cloneable placeholders of the first two layouts of the `pptx`
library's default template: layout 0 ("Title Slide") exposes a title (idx 0)
and a subtitle (idx 1); layout 1 ("Title and Content") exposes a title
(idx 0) and a body (idx 1). Used as a concrete witness environment. -/
def defaultTemplate : Template := ⟨[⟨[0, 1]⟩, ⟨[0, 1]⟩]⟩

/-- The deck the script builds on the default template. -/
def sampleDeck : Deck :=
  ⟨[⟨⟨[0, 1]⟩,
      [⟨0, ⟨[⟨"Test Presentation"⟩]⟩⟩,
       ⟨1, ⟨[⟨"Created by file2ai"⟩]⟩⟩]⟩,
    ⟨⟨[0, 1]⟩,
      [⟨0, ⟨[⟨"Sample Content"⟩]⟩⟩,
       ⟨1, ⟨[⟨"This is a test slide"⟩,
             ⟨"• Bullet point 1"⟩,
             ⟨"• Bullet point 2"⟩]⟩⟩]⟩]⟩

/-- A concrete witness environment for successful runs. -/
def defaultEnv : Env :=
  ⟨"/repo/create_test_ppt.py", "/somewhere/else", defaultTemplate, true⟩

example : create_test_deck defaultTemplate = .ok sampleDeck := rfl

example : os_path_dirname "/repo/create_test_ppt.py" = "/repo" := by decide

example : os_path_join "/repo" "sample.pptx" = "/repo/sample.pptx" := by decide

/-! ### Helper lemmas -/

theorem listModify_nil {α : Type} (i : Nat) (f : α → α) :
    listModify ([] : List α) i f = [] := rfl

theorem listModify_cons_zero {α : Type} (x : α) (xs : List α) (f : α → α) :
    listModify (x :: xs) 0 f = f x :: xs := rfl

theorem listModify_cons_succ {α : Type} (x : α) (xs : List α) (n : Nat)
    (f : α → α) : listModify (x :: xs) (n + 1) f = x :: listModify xs n f := rfl

theorem modifyPh_preserves_idx (i : Nat) (f : TextFrame → TextFrame)
    (ph : Placeholder) :
    (if ph.idx == i then Placeholder.mk ph.idx (f ph.tf) else ph).idx = ph.idx := by
  split <;> rfl

theorem find?_modifyPh (sl : Slide) (i j : Nat) (f : TextFrame → TextFrame) :
    (sl.modifyPh i f).placeholders.find? (fun ph => ph.idx == j) =
      (sl.placeholders.find? fun ph => ph.idx == j).map
        (fun ph => if ph.idx == i then Placeholder.mk ph.idx (f ph.tf) else ph) := by
  unfold Slide.modifyPh
  rw [List.find?_map]
  have hp : ((fun ph => ph.idx == j) ∘ fun ph =>
      if ph.idx == i then Placeholder.mk ph.idx (f ph.tf) else ph) =
      (fun ph : Placeholder => ph.idx == j) := by
    funext ph
    simp only [Function.comp]
    rw [modifyPh_preserves_idx]
  rw [hp]

theorem title_modifyPh (sl : Slide) (i : Nat) (f : TextFrame → TextFrame) :
    (sl.modifyPh i f).title =
      sl.title.map
        (fun ph => if ph.idx == i then Placeholder.mk ph.idx (f ph.tf) else ph) := by
  unfold Slide.title
  exact find?_modifyPh sl i 0 f

theorem placeholderAt_modifyPh (sl : Slide) (i j : Nat)
    (f : TextFrame → TextFrame) :
    (sl.modifyPh i f).placeholderAt j =
      (sl.placeholderAt j).map
        (fun ph => if ph.idx == i then Placeholder.mk ph.idx (f ph.tf) else ph) := by
  unfold Slide.placeholderAt
  exact find?_modifyPh sl i j f

theorem find?_fromLayout (l : Layout) (j : Nat) :
    (Slide.fromLayout l).placeholders.find? (fun ph => ph.idx == j) =
      (l.placeholderIdxs.find? fun i => i == j).map
        (fun i => Placeholder.mk i TextFrame.new) := by
  unfold Slide.fromLayout
  rw [List.find?_map]
  rfl

/-- The first slide as the script leaves it, in terms of the layout it was
created from. -/
def slide0final (l : Layout) : Slide :=
  ((Slide.fromLayout l).modifyPh 0 fun tf =>
    tf.setText "Test Presentation").modifyPh 1 fun tf =>
    tf.setText "Created by file2ai"

/-- The second slide as the script leaves it, in terms of the layout it was
created from. -/
def slide1final (l : Layout) : Slide :=
  (((((Slide.fromLayout l).modifyPh 0 fun tf =>
    tf.setText "Sample Content").modifyPh 1 fun tf =>
    tf.setText "This is a test slide").modifyPh 1 fun tf =>
    tf.add_paragraph.setLastText "• Bullet point 1").modifyPh 1 fun tf =>
    tf.add_paragraph.setLastText "• Bullet point 2")

/-- Inversion: a successful deck build forces both layout lookups and all
placeholder lookups to succeed, and determines the deck completely. -/
theorem create_test_deck_ok_inv (tmpl : Template) (d : Deck)
    (h : create_test_deck tmpl = .ok d) :
    ∃ l0 l1, tmpl.slide_layouts[0]? = some l0 ∧
      tmpl.slide_layouts[1]? = some l1 ∧
      (Slide.fromLayout l0).title.isSome ∧
      ((Slide.fromLayout l0).placeholderAt 1).isSome ∧
      (Slide.fromLayout l1).title.isSome ∧
      ((Slide.fromLayout l1).placeholderAt 1).isSome ∧
      d = ⟨[slide0final l0, slide1final l1]⟩ := by
  unfold create_test_deck at h
  simp only [Deck.add_slide, Deck.slideAtD, Deck.modifyPh, List.nil_append,
    List.length_cons, List.length_nil, List.getD_cons_zero, List.getD_cons_succ,
    List.cons_append, listModify_cons_zero, listModify_cons_succ,
    listModify_nil, Nat.add_sub_cancel] at h
  split at h
  · exact absurd h (by simp)
  next l0 hl0 =>
    split at h
    · exact absurd h (by simp)
    next ph0 hph0 =>
      split at h
      · exact absurd h (by simp)
      next t0 ht0 =>
        split at h
        · exact absurd h (by simp)
        next l1 hl1 =>
          split at h
          · exact absurd h (by simp)
          next ph1 hph1 =>
            split at h
            · exact absurd h (by simp)
            next t1 ht1 =>
              refine ⟨l0, l1, hl0, hl1, ?_, ?_, ?_, ?_, ?_⟩
              · rw [ht0]; rfl
              · rw [hph0]; rfl
              · rw [ht1]; rfl
              · rw [hph1]; rfl
              · cases h
                simp [slide0final, slide1final, Slide.modifyPh]

theorem title_eq_placeholderAt_zero (sl : Slide) : sl.title = sl.placeholderAt 0 := rfl

theorem title_idx_eq_zero {sl : Slide} {ph : Placeholder}
    (h : sl.title = some ph) : ph.idx = 0 := by
  unfold Slide.title at h
  have := List.find?_some h
  simpa using this

theorem placeholderAt_idx_eq {sl : Slide} {j : Nat} {ph : Placeholder}
    (h : sl.placeholderAt j = some ph) : ph.idx = j := by
  unfold Slide.placeholderAt at h
  have := List.find?_some h
  simpa using this

theorem fromLayout_placeholderAt_isSome (l : Layout) (j : Nat)
    (hm : j ∈ l.placeholderIdxs) :
    ((Slide.fromLayout l).placeholderAt j).isSome := by
  unfold Slide.placeholderAt
  rw [find?_fromLayout]
  rw [Option.isSome_map']
  rw [List.find?_isSome]
  exact ⟨j, hm, by simp⟩

theorem fromLayout_title_isSome (l : Layout) (hm : 0 ∈ l.placeholderIdxs) :
    (Slide.fromLayout l).title.isSome := by
  rw [title_eq_placeholderAt_zero]
  exact fromLayout_placeholderAt_isSome l 0 hm

theorem fromLayout_placeholderAt_eq {l : Layout} {j : Nat} {ph : Placeholder}
    (h : (Slide.fromLayout l).placeholderAt j = some ph) :
    ph = ⟨j, TextFrame.new⟩ := by
  unfold Slide.placeholderAt at h
  rw [find?_fromLayout] at h
  obtain ⟨i, hi, rfl⟩ := Option.map_eq_some'.mp h
  have : i = j := by simpa using List.find?_some hi
  rw [this]

theorem intercalate_singleton (sep s : String) :
    String.intercalate sep [s] = s := rfl

/-! ### Claims about the built deck -/

/-- C1: every successful build produces a deck with exactly 2 slides; the
first slide is created from the deck's first built-in layout (index 0) and
the second from the second built-in layout (index 1), appended in that
order. -/
theorem claim_C1_two_slides (tmpl : Template) (d : Deck)
    (h : create_test_deck tmpl = .ok d) :
    d.slides.length = 2 ∧
      ∃ l0 l1, tmpl.slide_layouts[0]? = some l0 ∧
        tmpl.slide_layouts[1]? = some l1 ∧
        d.slides.map Slide.layout = [l0, l1] := by
  obtain ⟨l0, l1, hl0, hl1, -, -, -, -, rfl⟩ := create_test_deck_ok_inv tmpl d h
  refine ⟨rfl, l0, l1, hl0, hl1, ?_⟩
  simp [slide0final, slide1final, Slide.modifyPh, Slide.fromLayout]

/-- C1 witness: on the default template the build succeeds and the theorem's
conclusion holds. -/
theorem claim_C1_two_slides_witness :
    create_test_deck defaultTemplate = .ok sampleDeck ∧
      (sampleDeck.slides.length = 2 ∧
        ∃ l0 l1, defaultTemplate.slide_layouts[0]? = some l0 ∧
          defaultTemplate.slide_layouts[1]? = some l1 ∧
          sampleDeck.slides.map Slide.layout = [l0, l1]) :=
  ⟨rfl, claim_C1_two_slides defaultTemplate sampleDeck rfl⟩

/-- C2: on every successful build, the first slide's title placeholder text
is "Test Presentation" and its subtitle placeholder (idx 1) text is
"Created by file2ai". -/
theorem claim_C2_first_slide_text (tmpl : Template) (d : Deck)
    (h : create_test_deck tmpl = .ok d) :
    ∃ sl0, d.slides[0]? = some sl0 ∧
      sl0.title.map (fun ph => ph.tf.text) = some "Test Presentation" ∧
      (sl0.placeholderAt 1).map (fun ph => ph.tf.text) =
        some "Created by file2ai" := by
  obtain ⟨l0, l1, hl0, hl1, hti, hsi, -, -, rfl⟩ := create_test_deck_ok_inv tmpl d h
  refine ⟨slide0final l0, rfl, ?_, ?_⟩
  · unfold slide0final
    rw [title_modifyPh, title_modifyPh]
    obtain ⟨ph, hph⟩ := Option.isSome_iff_exists.mp hti
    have hidx : ph.idx = 0 := title_idx_eq_zero hph
    rw [hph]
    simp [hidx, TextFrame.setText, TextFrame.text, intercalate_singleton]
  · unfold slide0final
    rw [placeholderAt_modifyPh, placeholderAt_modifyPh]
    obtain ⟨ph, hph⟩ := Option.isSome_iff_exists.mp hsi
    have hidx : ph.idx = 1 := placeholderAt_idx_eq hph
    rw [hph]
    simp [hidx, TextFrame.setText, TextFrame.text, intercalate_singleton]

/-- C2 witness: the theorem applied to the default template. -/
theorem claim_C2_first_slide_text_witness :
    create_test_deck defaultTemplate = .ok sampleDeck ∧
      ∃ sl0, sampleDeck.slides[0]? = some sl0 ∧
        sl0.title.map (fun ph => ph.tf.text) = some "Test Presentation" ∧
        (sl0.placeholderAt 1).map (fun ph => ph.tf.text) =
          some "Created by file2ai" :=
  ⟨rfl, claim_C2_first_slide_text defaultTemplate sampleDeck rfl⟩

/-- C3: on every successful build, the second slide's title text is
"Sample Content" and its body placeholder (idx 1) holds exactly three
paragraphs: "This is a test slide", "• Bullet point 1", "• Bullet point 2",
in that order (the bullet is a literal character in the text). -/
theorem claim_C3_second_slide_text (tmpl : Template) (d : Deck)
    (h : create_test_deck tmpl = .ok d) :
    ∃ sl1, d.slides[1]? = some sl1 ∧
      sl1.title.map (fun ph => ph.tf.text) = some "Sample Content" ∧
      (sl1.placeholderAt 1).map (fun ph => ph.tf.paragraphs.map Paragraph.text) =
        some ["This is a test slide", "• Bullet point 1", "• Bullet point 2"] := by
  obtain ⟨l0, l1, hl0, hl1, -, -, hti, hbi, rfl⟩ := create_test_deck_ok_inv tmpl d h
  refine ⟨slide1final l1, rfl, ?_, ?_⟩
  · unfold slide1final
    rw [title_modifyPh, title_modifyPh, title_modifyPh, title_modifyPh]
    obtain ⟨ph, hph⟩ := Option.isSome_iff_exists.mp hti
    have hidx : ph.idx = 0 := title_idx_eq_zero hph
    rw [hph]
    simp [hidx, TextFrame.setText, TextFrame.text, intercalate_singleton]
  · unfold slide1final
    rw [placeholderAt_modifyPh, placeholderAt_modifyPh, placeholderAt_modifyPh,
      placeholderAt_modifyPh]
    obtain ⟨ph, hph⟩ := Option.isSome_iff_exists.mp hbi
    have hconc : ph = ⟨1, TextFrame.new⟩ := fromLayout_placeholderAt_eq hph
    rw [hph, hconc]
    simp [TextFrame.setText, TextFrame.add_paragraph, TextFrame.setLastText,
      TextFrame.new, listModify]

/-- C3 witness: the theorem applied to the default template. -/
theorem claim_C3_second_slide_text_witness :
    create_test_deck defaultTemplate = .ok sampleDeck ∧
      ∃ sl1, sampleDeck.slides[1]? = some sl1 ∧
        sl1.title.map (fun ph => ph.tf.text) = some "Sample Content" ∧
        (sl1.placeholderAt 1).map
            (fun ph => ph.tf.paragraphs.map Paragraph.text) =
          some ["This is a test slide", "• Bullet point 1", "• Bullet point 2"] :=
  ⟨rfl, claim_C3_second_slide_text defaultTemplate sampleDeck rfl⟩

/-- C9: when the template provides at least two layouts and the slides built
from layouts 0 and 1 each expose a title shape (idx 0) and a placeholder at
idx 1, every index access in the generator is in bounds: the build reaches
no error branch. -/
theorem claim_C9_indices_in_bounds (tmpl : Template) (l0 l1 : Layout)
    (h0 : tmpl.slide_layouts[0]? = some l0)
    (h1 : tmpl.slide_layouts[1]? = some l1)
    (ht0 : 0 ∈ l0.placeholderIdxs) (hs0 : 1 ∈ l0.placeholderIdxs)
    (ht1 : 0 ∈ l1.placeholderIdxs) (hb1 : 1 ∈ l1.placeholderIdxs) :
    ∃ d, create_test_deck tmpl = .ok d := by
  obtain ⟨q0, hq0⟩ :=
    Option.isSome_iff_exists.mp (fromLayout_title_isSome l0 ht0)
  obtain ⟨p0, hp0⟩ :=
    Option.isSome_iff_exists.mp (fromLayout_placeholderAt_isSome l0 1 hs0)
  obtain ⟨q1, hq1⟩ :=
    Option.isSome_iff_exists.mp (fromLayout_title_isSome l1 ht1)
  obtain ⟨p1, hp1⟩ :=
    Option.isSome_iff_exists.mp (fromLayout_placeholderAt_isSome l1 1 hb1)
  refine ⟨⟨[slide0final l0, slide1final l1]⟩, ?_⟩
  unfold create_test_deck
  simp only [Deck.add_slide, Deck.slideAtD, Deck.modifyPh, List.nil_append,
    List.length_cons, List.length_nil, List.getD_cons_zero, List.getD_cons_succ,
    List.cons_append, listModify_cons_zero, listModify_cons_succ,
    listModify_nil, Nat.add_sub_cancel, h0, h1, hq0, hp0, hq1, hp1]
  simp [slide0final, slide1final]

/-- C9 witness: the default template satisfies every precondition. -/
theorem claim_C9_indices_in_bounds_witness :
    ∃ d, create_test_deck defaultTemplate = .ok d :=
  claim_C9_indices_in_bounds defaultTemplate ⟨[0, 1]⟩ ⟨[0, 1]⟩ rfl rfl
    (by decide) (by decide) (by decide) (by decide)

/-! ### Filesystem lemmas -/

theorem read_write_same (fs : FileSystem) (p : String) (d : Deck) :
    (fs.write p d).read p = some d := by
  unfold FileSystem.write FileSystem.read
  rw [List.find?_cons_of_pos _ (by simp)]
  rfl

theorem find?_filter_ne (l : List (String × Deck)) (p q : String) (h : q ≠ p) :
    (l.filter fun e => !(e.1 == p)).find? (fun e => e.1 == q) =
      l.find? (fun e => e.1 == q) := by
  induction l with
  | nil => rfl
  | cons a l ih =>
    rw [List.filter_cons]
    by_cases ha : a.1 = p
    · have h2 : (a.1 == q) = false := by
        rw [ha]
        exact beq_eq_false_iff_ne.mpr (Ne.symm h)
      rw [if_neg (by simp [ha])]
      rw [ih, List.find?_cons_of_neg _ (by simp [h2])]
    · rw [if_pos (by simp [ha])]
      rw [List.find?_cons, List.find?_cons]
      cases hq : (a.1 == q) <;> simp [ih]

theorem read_write_other (fs : FileSystem) (p q : String) (d : Deck)
    (h : q ≠ p) : (fs.write p d).read q = fs.read q := by
  unfold FileSystem.write FileSystem.read
  rw [List.find?_cons_of_neg _ (by simpa using Ne.symm h)]
  rw [find?_filter_ne _ _ _ h]

theorem write_write_same (fs : FileSystem) (p : String) (d : Deck) :
    (fs.write p d).write p d = fs.write p d := by
  unfold FileSystem.write
  congr 1
  rw [List.filter_cons, if_neg (by simp)]
  rw [List.filter_filter]
  have hp : (fun a : String × Deck => !(a.1 == p) && !(a.1 == p)) =
      (fun e : String × Deck => !(e.1 == p)) := by
    funext e
    cases he : (e.1 == p) <;> simp [he]
  rw [hp]

/-- Inversion for a successful full run: the deck build succeeded, saving was
possible, the filesystem got exactly one write at the script-relative path,
and stdout got exactly the one confirmation line. -/
theorem run_ok_inv (env : Env) (fs fs' : FileSystem) (out : List String)
    (h : create_test_presentation env fs = .ok (fs', out)) :
    ∃ d, create_test_deck env.tmpl = .ok d ∧ env.saveOk = true ∧
      fs' = fs.write (os_path_join (os_path_dirname env.file) "sample.pptx") d ∧
      out = ["Created test presentation at: " ++
        os_path_join (os_path_dirname env.file) "sample.pptx"] := by
  unfold create_test_presentation at h
  cases hb : create_test_deck env.tmpl with
  | error e =>
    rw [hb] at h
    simp at h
  | ok prs =>
    rw [hb] at h
    cases hs : env.saveOk with
    | false =>
      rw [hs] at h
      simp at h
    | true =>
      rw [hs] at h
      simp only [if_true, Except.ok.injEq, Prod.mk.injEq] at h
      obtain ⟨hfs, hout⟩ := h
      exact ⟨prs, rfl, rfl, hfs.symm, hout.symm⟩

/-! ### Claims about the full run -/

/-- C4: on every successful run the serialized file lands exactly at the
script's directory joined with `sample.pptx`; the path ignores the current
working directory, and an existing file at that path is overwritten. -/
theorem claim_C4_output_path (env : Env) (fs fs' : FileSystem)
    (out : List String)
    (h : create_test_presentation env fs = .ok (fs', out)) :
    ∃ d, create_test_deck env.tmpl = .ok d ∧
      fs' = fs.write (os_path_join (os_path_dirname env.file) "sample.pptx") d ∧
      fs'.read (os_path_join (os_path_dirname env.file) "sample.pptx") =
        some d ∧
      ∀ c, create_test_presentation { env with cwd := c } fs =
        create_test_presentation env fs := by
  obtain ⟨d, hd, hsk, rfl, hout⟩ := run_ok_inv env fs fs' out h
  exact ⟨d, hd, rfl, read_write_same fs _ d, fun c => rfl⟩

/-- The output path of the witness environment. -/
def samplePath : String := "/repo/sample.pptx"

/-- The filesystem after a first successful witness run on an empty
filesystem. -/
def wroteFS : FileSystem := ⟨[(samplePath, sampleDeck)]⟩

/-- The confirmation line of the witness run. -/
def okLine : String := "Created test presentation at: /repo/sample.pptx"

/-- C4 witness: the run on the default environment writes `sample.pptx` next
to the script. -/
theorem claim_C4_output_path_witness :
    ∃ d, create_test_deck defaultEnv.tmpl = .ok d ∧
      wroteFS = FileSystem.write ⟨[]⟩
        (os_path_join (os_path_dirname defaultEnv.file) "sample.pptx") d ∧
      wroteFS.read (os_path_join (os_path_dirname defaultEnv.file)
        "sample.pptx") = some d ∧
      ∀ c, create_test_presentation { defaultEnv with cwd := c } ⟨[]⟩ =
        create_test_presentation defaultEnv ⟨[]⟩ :=
  claim_C4_output_path defaultEnv ⟨[]⟩ wroteFS [okLine] rfl

/-- C5: on every successful run, stdout carries exactly the one line
`Created test presentation at: <path>` with the resolved output path, and the
file at that path has been written by then. -/
theorem claim_C5_stdout_line (env : Env) (fs fs' : FileSystem)
    (out : List String)
    (h : create_test_presentation env fs = .ok (fs', out)) :
    out = ["Created test presentation at: " ++
        os_path_join (os_path_dirname env.file) "sample.pptx"] ∧
      ∃ d, fs'.read (os_path_join (os_path_dirname env.file) "sample.pptx") =
        some d := by
  obtain ⟨d, hd, hsk, rfl, hout⟩ := run_ok_inv env fs fs' out h
  exact ⟨hout, d, read_write_same fs _ d⟩

/-- C5 witness: the witness run prints exactly the confirmation line. -/
theorem claim_C5_stdout_line_witness :
    [okLine] = ["Created test presentation at: " ++
        os_path_join (os_path_dirname defaultEnv.file) "sample.pptx"] ∧
      ∃ d, wroteFS.read (os_path_join (os_path_dirname defaultEnv.file)
        "sample.pptx") = some d :=
  claim_C5_stdout_line defaultEnv ⟨[]⟩ wroteFS [okLine] rfl

/-- C6: failures of the deck build or of saving are not caught: the same
exception escapes from the run, the exit status is non-zero, and nothing is
printed to stdout. -/
theorem claim_C6_error_propagation (env : Env) (fs : FileSystem)
    (h : (∃ e, create_test_deck env.tmpl = Except.error e) ∨
      env.saveOk = false) :
    ∃ e, create_test_presentation env fs = Except.error e ∧
      exitCode (create_test_presentation env fs) = 1 ∧
      stdoutLines (create_test_presentation env fs) = [] ∧
      (∀ eb, create_test_deck env.tmpl = Except.error eb → e = eb) := by
  cases hb : create_test_deck env.tmpl with
  | error e =>
    have hrun : create_test_presentation env fs = .error e := by
      unfold create_test_presentation
      rw [hb]
    refine ⟨e, hrun, by rw [hrun]; rfl, by rw [hrun]; rfl, ?_⟩
    intro eb heb
    exact Except.error.inj heb
  | ok prs =>
    have hsk : env.saveOk = false := by
      rcases h with ⟨e, he⟩ | hs
      · rw [hb] at he
        simp at he
      · exact hs
    have hrun : create_test_presentation env fs = .error .osError := by
      unfold create_test_presentation
      rw [hb]
      simp [hsk]
    refine ⟨.osError, hrun, by rw [hrun]; rfl, by rw [hrun]; rfl, ?_⟩
    intro eb heb
    simp at heb

/-- An environment whose output directory is not writable. -/
def envBad : Env :=
  ⟨"/repo/create_test_ppt.py", "/somewhere/else", defaultTemplate, false⟩

/-- C6 witness: on an unwritable directory the run fails with a non-zero exit
status and no success line. -/
theorem claim_C6_error_propagation_witness :
    ∃ e, create_test_presentation envBad ⟨[]⟩ = Except.error e ∧
      exitCode (create_test_presentation envBad ⟨[]⟩) = 1 ∧
      stdoutLines (create_test_presentation envBad ⟨[]⟩) = [] ∧
      (∀ eb, create_test_deck envBad.tmpl = Except.error eb → e = eb) :=
  claim_C6_error_propagation envBad ⟨[]⟩ (Or.inr rfl)

/-- C7: the generator is deterministic and overwriting, so a second run on
the filesystem a first run left behind reproduces exactly the same
filesystem and the same stdout line. -/
theorem claim_C7_idempotent (env : Env) (fs fs1 : FileSystem)
    (out : List String)
    (h : create_test_presentation env fs = .ok (fs1, out)) :
    create_test_presentation env fs1 = .ok (fs1, out) := by
  obtain ⟨d, hd, hsk, rfl, rfl⟩ := run_ok_inv env fs fs1 out h
  unfold create_test_presentation
  rw [hd]
  simp only [hsk, if_true]
  rw [write_write_same]

/-- C7 witness: a second witness run leaves `wroteFS` unchanged. -/
theorem claim_C7_idempotent_witness :
    create_test_presentation defaultEnv wroteFS = .ok (wroteFS, [okLine]) :=
  claim_C7_idempotent defaultEnv ⟨[]⟩ wroteFS [okLine] rfl

/-- C8: a successful run's only effects are one file at the output path and
one stdout line; every other path of the filesystem is untouched. -/
theorem claim_C8_frame (env : Env) (fs fs' : FileSystem) (out : List String)
    (h : create_test_presentation env fs = .ok (fs', out)) :
    out.length = 1 ∧
      (∃ d, fs'.read (os_path_join (os_path_dirname env.file) "sample.pptx") =
        some d) ∧
      ∀ q, q ≠ os_path_join (os_path_dirname env.file) "sample.pptx" →
        fs'.read q = fs.read q := by
  obtain ⟨d, hd, hsk, rfl, rfl⟩ := run_ok_inv env fs fs' out h
  exact ⟨rfl, ⟨d, read_write_same fs _ d⟩,
    fun q hq => read_write_other fs _ q d hq⟩

/-- C8 witness: the frame property at the witness run. -/
theorem claim_C8_frame_witness :
    [okLine].length = 1 ∧
      (∃ d, wroteFS.read (os_path_join (os_path_dirname defaultEnv.file)
        "sample.pptx") = some d) ∧
      ∀ q, q ≠ os_path_join (os_path_dirname defaultEnv.file) "sample.pptx" →
        wroteFS.read q = FileSystem.read ⟨[]⟩ q :=
  claim_C8_frame defaultEnv ⟨[]⟩ wroteFS [okLine] rfl

/-- C10: importing the module (any `__name__` other than `"__main__"`)
performs no file write and no stdout output, while running it as a script
invokes the generator exactly once. -/
theorem claim_C10_import_guard (name : String) (env : Env) (fs : FileSystem)
    (h : name ≠ "__main__") :
    module_toplevel name env fs = .ok (fs, []) ∧
      module_toplevel "__main__" env fs = create_test_presentation env fs := by
  constructor
  · unfold module_toplevel
    rw [if_neg (by simpa using h)]
  · unfold module_toplevel
    rw [if_pos (by simp)]

/-- C10 witness: importing under the name `"create_test_ppt"` does nothing. -/
theorem claim_C10_import_guard_witness :
    module_toplevel "create_test_ppt" defaultEnv ⟨[]⟩ = .ok (⟨[]⟩, []) ∧
      module_toplevel "__main__" defaultEnv ⟨[]⟩ =
        create_test_presentation defaultEnv ⟨[]⟩ :=
  claim_C10_import_guard "create_test_ppt" defaultEnv ⟨[]⟩ (by decide)
